import Mathlib

/-!
Verification of the fingerprint forensic texture pipeline.

The definitions below are a shallow embedding of the repository's
TypeScript sources:

* `server/_core/imageGeneration.ts` — the pixel pipeline inside
  `generateImage`: greyscale, contrast(0.8), the per-pixel
  ridge/valley classification + texture synthesis loop.
* `server/textureRouter.ts` — the `applyTexture` orchestrator
  (run record status writes), the hard-coded `qualityMetrics`
  object, `analyzeTextureQuality`, and `getHistory`.
* `server/storage.ts` — the local `normalizeKey` / `storagePut`.
* `server/_core/notification.ts` — `notifyOwner` validation and
  delivery outcome.

Machine bytes are `Nat` with explicit clamping; JS floats only occur
in the noise term `(Math.random() - 0.5) * 40`, whose stored byte is
exactly `clamp (r + floorNoise)` for an integer `floorNoise` in
[-20, 19], so the synthesizer is parameterized by an integer noise
oracle.  Effects (database, LLM, notifier, fetch) are parameterized
by explicit outcome values.
-/

namespace Forensic

/-- One RGBA pixel of the Jimp bitmap: `bitmap.data[idx .. idx+3]`. -/
structure Pixel where
  r : Nat
  g : Nat
  b : Nat
  a : Nat
deriving DecidableEq, Repr

/-- Default pixel used for out-of-range reads. -/
def defaultPixel : Pixel := ⟨0, 0, 0, 0⟩

/-- A decoded image: `image.bitmap.width/height` and the pixel list
(the flat RGBA byte buffer grouped into 4-byte pixels, in the same
row-major order `idx = (width * y + x) << 2` the source loops use). -/
structure Image where
  width : Nat
  height : Nat
  data : List Pixel
deriving DecidableEq, Repr

/-- A raw (pre-decode) image buffer: declared dimensions plus the flat
channel byte list handed to the decoder. -/
structure ImageBuffer where
  width : Nat
  height : Nat
  channels : List Nat
deriving DecidableEq, Repr

/-- Group a flat RGBA channel list into pixels (4 bytes per pixel). -/
def groupPixels : List Nat → List Pixel
  | r :: g :: b :: a :: rest => ⟨r, g, b, a⟩ :: groupPixels rest
  | _ => []

/-- Modelled from the spec: the upstream decode step (`Jimp.read` in
`imageGeneration.ts`, an external library call) "fails with
`InvalidImage` if channel data length does not match width×height×4";
on success it yields the decoded pixel grid. -/
def decodeImage (buf : ImageBuffer) : Except String Image :=
  if buf.channels.length = buf.width * buf.height * 4 then
    Except.ok ⟨buf.width, buf.height, groupPixels buf.channels⟩
  else
    Except.error "InvalidImage: channel data length does not match width*height*4"

/-! ### Pre-classification passes (`image.greyscale(); image.contrast(0.8)`)

These two calls run before the classification loop
(`imageGeneration.ts` lines 53-56).  They are Jimp library calls,
modelled here by Jimp's per-pixel formulas in exact integer
arithmetic: greyscale is the rounded Rec. 709 luminance
`round(0.2126 r + 0.7152 g + 0.0722 b)`, and contrast(0.8) maps each
channel through `floor(factor * (v - 127.5) + 127.5)` clamped to
[0, 255] with `factor = (0.8 + 1) / (1 - 0.8) = 9`, i.e. `9 v - 1020`
clamped. -/

/-- Rounded Rec. 709 luminance of a pixel (Jimp `greyscale`). -/
def greyValue (p : Pixel) : Nat :=
  (2126 * p.r + 7152 * p.g + 722 * p.b + 5000) / 10000

/-- Jimp `greyscale` writes the luminance to all three color channels. -/
def greyPixel (p : Pixel) : Pixel :=
  ⟨greyValue p, greyValue p, greyValue p, p.a⟩

/-- Jimp `contrast(0.8)` channel map: `9 * v - 1020` clamped to [0, 255]. -/
def contrastValue (v : Nat) : Nat :=
  if 9 * v ≤ 1020 then 0 else min 255 (9 * v - 1020)

/-- `contrast(0.8)` applied to the three color channels of a pixel. -/
def contrastPixel (p : Pixel) : Pixel :=
  ⟨contrastValue p.r, contrastValue p.g, contrastValue p.b, p.a⟩

/-- The image handed to the classification loop: greyscale then
contrast(0.8), each a per-pixel map over the bitmap. -/
def preprocess (img : Image) : Image :=
  ⟨img.width, img.height, (img.data.map greyPixel).map contrastPixel⟩

/-! ### Pixel classification and texture synthesis loop
(`imageGeneration.ts` lines 64-84) -/

/-- Ridge/valley classification outcome. -/
inductive PixelClass
  | Ridge
  | Valley
deriving DecidableEq, Repr

/-- The loop's test `if (r < 128)` on the red channel it reads. -/
def classifyValue (r : Nat) : PixelClass :=
  if r < 128 then PixelClass.Ridge else PixelClass.Valley

/-- Classification the program performs at pixel `i` of an input image:
the threshold is applied to the red channel **after** the greyscale and
contrast passes. -/
def classifyAt (img : Image) (i : Nat) : PixelClass :=
  classifyValue ((preprocess img).data.getD i defaultPixel).r

/-- Clamp an integer to a byte: `Math.max(0, Math.min(255, x))`. -/
def clampToByte (x : Int) : Nat := (max 0 (min 255 x)).toNat

/-- The loop body for one pixel: ridge pixels (`r < 128`) get the same
clamped noisy value written to R, G and B; valley pixels get 255 on all
three color channels; alpha is untouched in both branches. -/
def synthPixel (n : Int) (p : Pixel) : Pixel :=
  if p.r < 128 then
    let v := clampToByte ((p.r : Int) + n)
    ⟨v, v, v, p.a⟩
  else
    ⟨255, 255, 255, p.a⟩

/-- The synthesis loop from pixel index `i` on.  The in-place JS loop
only ever writes the channels of the pixel it is visiting, after
reading its red channel, so it is exactly this per-pixel map. -/
def synthesizeFrom (noise : Nat → Int) : Nat → List Pixel → List Pixel
  | _, [] => []
  | i, p :: ps => synthPixel (noise i) p :: synthesizeFrom noise (i + 1) ps

/-- The Texture Synthesizer stage: the classification + synthesis loop
applied to the (already preprocessed) bitmap, with `noise i` the
integer part of `(Math.random() - 0.5) * 40` drawn at pixel `i`. -/
def synthesize (noise : Nat → Int) (img : Image) : Image :=
  ⟨img.width, img.height, synthesizeFrom noise 0 img.data⟩

/-! Indexing lemmas for the synthesis loop. -/

theorem synthesizeFrom_length (noise : Nat → Int) :
    ∀ (i : Nat) (ps : List Pixel), (synthesizeFrom noise i ps).length = ps.length := by
  intro i ps
  induction ps generalizing i with
  | nil => rfl
  | cons p ps ih => simp [synthesizeFrom, ih]

theorem synthesizeFrom_getD (noise : Nat → Int) :
    ∀ (ps : List Pixel) (i0 i : Nat), i < ps.length →
      (synthesizeFrom noise i0 ps).getD i defaultPixel =
        synthPixel (noise (i0 + i)) (ps.getD i defaultPixel) := by
  intro ps
  induction ps with
  | nil => intro i0 i h; simp at h
  | cons p ps ih =>
    intro i0 i h
    cases i with
    | zero => simp [synthesizeFrom]
    | succ j =>
      have hj : j < ps.length := by simpa using h
      have := ih (i0 + 1) j hj
      simpa [synthesizeFrom, Nat.add_assoc, Nat.add_comm 1 j] using this

theorem synthesize_getD (noise : Nat → Int) (img : Image) (i : Nat)
    (h : i < img.data.length) :
    (synthesize noise img).data.getD i defaultPixel =
      synthPixel (noise i) (img.data.getD i defaultPixel) := by
  simpa using synthesizeFrom_getD noise img.data 0 i h

/-! ### Claim C1 — valley pixels are forced to pure white -/

/-- C1: for every input image handed to the Texture Synthesizer and
every pixel classified Valley at classification time (red channel
≥ 128 when the loop reads it), the synthesized pixel has R = G = B =
255, with alpha untouched — so no Valley-classified pixel has any
color channel below 255.  Holds for every noise oracle. -/
theorem spec_c1_valley_pure_white (noise : Nat → Int) (img : Image) (i : Nat)
    (h : i < img.data.length)
    (hv : 128 ≤ (img.data.getD i defaultPixel).r) :
    (synthesize noise img).data.getD i defaultPixel =
      ⟨255, 255, 255, (img.data.getD i defaultPixel).a⟩ := by
  rw [synthesize_getD noise img i h]
  unfold synthPixel
  rw [if_neg (by omega)]

/-- C1 witness: a concrete 1×1 image whose pixel reads 200 (≥ 128) at
classification time is synthesized to pure white with alpha preserved. -/
theorem spec_c1_witness :
    (0 < (Image.mk 1 1 [⟨200, 10, 10, 7⟩]).data.length) ∧
    (synthesize (fun _ => 0) (Image.mk 1 1 [⟨200, 10, 10, 7⟩])).data.getD 0 defaultPixel =
      ⟨255, 255, 255, 7⟩ :=
  ⟨by decide,
   spec_c1_valley_pure_white (fun _ => 0) (Image.mk 1 1 [⟨200, 10, 10, 7⟩]) 0
     (by decide) (by decide)⟩

/-! ### Claim C5 — ridge pixels: achromatic, within ±20 of the read value -/

/-- C5: every pixel classified Ridge (red channel < 128 at
classification time) is synthesized to an achromatic pixel (R = G = B)
whose common value lies in [r − 20, r + 20] clamped to [0, 255], where
`r` is the intensity the synthesizer read; alpha is untouched.  The
noise bound hypothesis is the range of `(Math.random() - 0.5) * 40`. -/
theorem spec_c5_ridge_achromatic_bounded (noise : Nat → Int) (img : Image) (i : Nat)
    (h : i < img.data.length)
    (hr : (img.data.getD i defaultPixel).r < 128)
    (hlo : -20 ≤ noise i) (hhi : noise i ≤ 20) :
    ((synthesize noise img).data.getD i defaultPixel).r =
        ((synthesize noise img).data.getD i defaultPixel).g ∧
    ((synthesize noise img).data.getD i defaultPixel).g =
        ((synthesize noise img).data.getD i defaultPixel).b ∧
    (img.data.getD i defaultPixel).r - 20 ≤
        ((synthesize noise img).data.getD i defaultPixel).r ∧
    ((synthesize noise img).data.getD i defaultPixel).r ≤
        min 255 ((img.data.getD i defaultPixel).r + 20) ∧
    ((synthesize noise img).data.getD i defaultPixel).a =
        (img.data.getD i defaultPixel).a := by
  rw [synthesize_getD noise img i h]
  unfold synthPixel
  rw [if_pos hr]
  refine ⟨rfl, rfl, ?_, ?_, rfl⟩ <;>
    · simp only [clampToByte]
      omega

/-- C5 witness: a concrete dark pixel (value 100) with concrete noise
−20 is synthesized to the achromatic value 80 ∈ [80, 120]. -/
theorem spec_c5_witness :
    ((synthesize (fun _ => -20) (Image.mk 1 1 [⟨100, 100, 100, 3⟩])).data.getD 0 defaultPixel).r =
        ((synthesize (fun _ => -20) (Image.mk 1 1 [⟨100, 100, 100, 3⟩])).data.getD 0 defaultPixel).g ∧
    ((synthesize (fun _ => -20) (Image.mk 1 1 [⟨100, 100, 100, 3⟩])).data.getD 0 defaultPixel).g =
        ((synthesize (fun _ => -20) (Image.mk 1 1 [⟨100, 100, 100, 3⟩])).data.getD 0 defaultPixel).b ∧
    ((Image.mk 1 1 [⟨100, 100, 100, 3⟩]).data.getD 0 defaultPixel).r - 20 ≤
        ((synthesize (fun _ => -20) (Image.mk 1 1 [⟨100, 100, 100, 3⟩])).data.getD 0 defaultPixel).r ∧
    ((synthesize (fun _ => -20) (Image.mk 1 1 [⟨100, 100, 100, 3⟩])).data.getD 0 defaultPixel).r ≤
        min 255 (((Image.mk 1 1 [⟨100, 100, 100, 3⟩]).data.getD 0 defaultPixel).r + 20) ∧
    ((synthesize (fun _ => -20) (Image.mk 1 1 [⟨100, 100, 100, 3⟩])).data.getD 0 defaultPixel).a =
        ((Image.mk 1 1 [⟨100, 100, 100, 3⟩]).data.getD 0 defaultPixel).a :=
  spec_c5_ridge_achromatic_bounded (fun _ => -20) (Image.mk 1 1 [⟨100, 100, 100, 3⟩]) 0
    (by decide) (by decide) (by decide) (by decide)

/-! ### Claim C4 — what intensity is the 128 threshold applied to? -/

/-- Helper: `getD` through a `map` whose function fixes the default. -/
theorem getD_map_of_fix (f : Pixel → Pixel) (hf : f defaultPixel = defaultPixel) :
    ∀ (l : List Pixel) (i : Nat),
      (l.map f).getD i defaultPixel = f (l.getD i defaultPixel) := by
  intro l
  induction l with
  | nil => intro i; simp [hf]
  | cons p ps ih =>
    intro i
    cases i with
    | zero => simp
    | succ j => simpa using ih j

/-- C4 counterexample: at the concrete 1×1 input image whose only pixel
is pure red (255, 0, 0, 255), the pre-processing red channel is 255 ≥
128 (so the claim classifies it Valley), yet the program classifies it
Ridge, because the greyscale pass run before the threshold lowers the
intensity to the luminance 54: an earlier pass does change the
intensity the threshold is applied to. -/
theorem spec_c4_counterexample :
    128 ≤ ((Image.mk 1 1 [⟨255, 0, 0, 255⟩]).data.getD 0 defaultPixel).r ∧
    classifyValue ((Image.mk 1 1 [⟨255, 0, 0, 255⟩]).data.getD 0 defaultPixel).r =
      PixelClass.Valley ∧
    classifyAt (Image.mk 1 1 [⟨255, 0, 0, 255⟩]) 0 = PixelClass.Ridge := by
  refine ⟨by decide, by decide, ?_⟩
  decide

/-- C4 (amended): classification of pixel `i` is a pure function of
that pixel's own pre-processing color sample — it never depends on
neighboring pixels — but the 128 threshold is applied to the greyscale
+ contrast(0.8) transformed intensity, not to the raw red channel.
For achromatic pixels (R = G = B) the two pre-passes preserve the 128
boundary, so there the classification does equal thresholding the
pre-processing intensity at 128. -/
theorem spec_c4_amended :
    (∀ (img : Image) (i : Nat),
      classifyAt img i =
        classifyValue (contrastValue (greyValue (img.data.getD i defaultPixel)))) ∧
    (∀ p : Pixel, p.g = p.r → p.b = p.r →
      classifyValue (contrastValue (greyValue p)) = classifyValue p.r) := by
  constructor
  · intro img i
    unfold classifyAt preprocess
    have h1 : contrastPixel (greyPixel defaultPixel) = defaultPixel := by decide
    rw [List.map_map]
    have h2 := getD_map_of_fix (contrastPixel ∘ greyPixel) h1 img.data i
    simp only [h2]
    rfl
  · intro p hg hb
    have hgrey : greyValue p = p.r := by
      unfold greyValue
      rw [hg, hb]
      omega
    rw [hgrey]
    unfold classifyValue contrastValue
    split_ifs <;> first | rfl | omega

/-- C4 witness: the amended theorem applied at a concrete grey image —
the pixel (120, 120, 120, 255) is achromatic, so the program's
classification at index 0 equals thresholding its raw value 120, i.e.
Ridge. -/
theorem spec_c4_witness :
    classifyAt (Image.mk 1 1 [⟨120, 120, 120, 255⟩]) 0 = PixelClass.Ridge := by
  have h1 := spec_c4_amended.1 (Image.mk 1 1 [⟨120, 120, 120, 255⟩]) 0
  have h2 := spec_c4_amended.2 ⟨120, 120, 120, 255⟩ rfl rfl
  have h3 : (Image.mk 1 1 [⟨120, 120, 120, 255⟩]).data.getD 0 defaultPixel =
      ⟨120, 120, 120, 255⟩ := rfl
  rw [h1, h3, h2]
  decide

/-! ### Quality metrics (`textureRouter.ts` lines 311-318)

`applyTexture` builds the metrics object from six hard-coded literals,
in this field order, with no reference to either image. -/

/-- The six quality scores attached to a completed run. -/
structure QualityMetrics where
  textureUniformity : ℚ
  edgePreservation : ℚ
  contrastRatio : ℚ
  overallScore : ℚ
  ridgeClarity : ℚ
  backgroundCleanness : ℚ
deriving DecidableEq, Repr

/-- The literal metrics object `applyTexture` creates for every run. -/
def qualityMetrics : QualityMetrics :=
  { textureUniformity := 98 / 100
    edgePreservation := 99 / 100
    contrastRatio := 96 / 100
    overallScore := 98 / 100
    ridgeClarity := 99 / 100
    backgroundCleanness := 99 / 100 }

/-! ### LLM analysis (`textureRouter.ts` lines 141-237) -/

/-- The structured report `analyzeTextureQuality` resolves with. -/
structure LlmReport where
  qualityAssessment : String
  recommendations : List String
  forensicNotes : String
  confidenceScore : ℚ
deriving DecidableEq, Repr

/-- Fallback returned when the LLM response carries no string content. -/
def analysisUnavailable : LlmReport :=
  { qualityAssessment := "Analysis unavailable"
    recommendations := []
    forensicNotes := "LLM analysis could not be completed"
    confidenceScore := 0 }

/-- Fallback returned by the `catch` block when the LLM call throws
(errors or times out). -/
def analysisFailed (msg : String) : LlmReport :=
  { qualityAssessment := "Analysis failed"
    recommendations := ["Retry analysis manually"]
    forensicNotes := "Analysis error: " ++ msg
    confidenceScore := 0 }

/-- `analyzeTextureQuality`, parameterized by the outcome of the
`invokeLLM` call: `.error msg` when the call throws or times out,
`.ok none` when it resolves without parseable string content, and
`.ok (some rep)` when it resolves with a parsed report.  The function
catches every failure and always returns a report — it never throws. -/
def analyzeTextureQuality (oracle : Except String (Option LlmReport)) : LlmReport :=
  match oracle with
  | Except.ok (some rep) => rep
  | Except.ok none => analysisUnavailable
  | Except.error msg => analysisFailed msg

/-! ### Notification (`server/_core/notification.ts`, bundle lines 463-543) -/

/-- Environment consumed by `notifyOwner`: the two `ENV` credentials
and the outcome of the `fetch` to the notification service (`.error`
when the fetch throws, `.ok b` with `b = response.ok`). -/
structure NotifyEnv where
  forgeApiUrl : Option String
  forgeApiKey : Option String
  fetchResult : Except String Bool
deriving Repr

/-- JS `String.prototype.trim`: strip whitespace from both ends.
(Defined structurally so concrete instances reduce definitionally.) -/
def trimString (s : String) : String :=
  ⟨((s.data.dropWhile Char.isWhitespace).reverse.dropWhile Char.isWhitespace).reverse⟩

/-- `notifyOwner`: validates the payload and configuration — throwing a
`TRPCError` (modelled as `.error`) on an empty/oversized title or
content or a missing credential — then delivers, turning any fetch
failure or non-ok response into `.ok false` (logged, not thrown). -/
def notifyOwner (env : NotifyEnv) (title content : String) : Except String Bool :=
  if ((trimString title).length = 0) then Except.error "Notification title is required."
  else if ((trimString content).length = 0) then Except.error "Notification content is required."
  else if 1200 < (trimString title).length then
    Except.error "Notification title must be at most 1200 characters."
  else if 20000 < (trimString content).length then
    Except.error "Notification content must be at most 20000 characters."
  else if env.forgeApiUrl.isNone then
    Except.error "Notification service URL is not configured."
  else if env.forgeApiKey.isNone then
    Except.error "Notification service API key is not configured."
  else
    match env.fetchResult with
    | Except.error _ => Except.ok false
    | Except.ok ok => Except.ok ok

/-! ### The applyTexture orchestrator (`textureRouter.ts` lines 240-411) -/

/-- Run record status values (`processingHistory.status`). -/
inductive RunStatus
  | pending
  | processing
  | completed
  | failed
deriving DecidableEq, Repr

/-- One write the orchestrator issues against the run record store:
the creating insert (with status `processing`), the success update
(status `completed`, carrying the processed image url, the metrics
object and the llm report; the timestamps it also sets are wall-clock
values and are not modelled), or the failure update (status `failed`,
carrying the error message). -/
inductive DbWrite
  | insertProcessing
  | updateCompleted (processedImageUrl : String) (metrics : QualityMetrics)
      (llmAnalysis : Option LlmReport)
  | updateFailed (errorMessage : String)
deriving DecidableEq, Repr

/-- Outcomes of the external calls one `applyTexture` invocation makes,
plus the two feature flags of its input.  `genResult` is the outcome of
`await generateImage(...)`: `.error msg` when it throws (its own catch
block has already prefixed "Local processing failed: "), `.ok none`
when it resolves without a url, `.ok (some url)` otherwise.
`notifyResult` is the outcome of the `await notifyOwner(...)` call
(see `notifyOwner` above).  Record-store writes are modelled as always
succeeding. -/
structure RunEnv where
  dbAvailable : Bool
  insertId : Option Nat
  genResult : Except String (Option String)
  oracleResult : Except String (Option LlmReport)
  notifyResult : Except String Bool
  enableLlmAnalysis : Bool
  sendNotification : Bool
deriving Repr

/-- The `applyTexture` mutation: returns the ordered list of run-record
writes it issued and its own outcome (`.ok url` on success, `.error`
when it re-throws).  Faithful to the source control flow: insert with
status `processing` when the db is up; any throw from generation (or a
missing url) lands in the single catch block, which issues the `failed`
update when `db && historyId` and re-throws; otherwise the `completed`
update is issued, and only then the notification is awaited — a throw
from `notifyOwner` lands in the same catch block, issuing another
`failed` update after the `completed` one. -/
def applyTexture (env : RunEnv) : List DbWrite × Except String String :=
  let startWrites := if env.dbAvailable then [DbWrite.insertProcessing] else []
  let hasRecord := env.dbAvailable && env.insertId.isSome
  match env.genResult with
  | Except.error msg =>
      (startWrites ++ (if hasRecord then [DbWrite.updateFailed msg] else []),
       Except.error ("Error applying texture: " ++ msg))
  | Except.ok none =>
      let msg := "Image generation did not return a valid URL"
      (startWrites ++ (if hasRecord then [DbWrite.updateFailed msg] else []),
       Except.error ("Error applying texture: " ++ msg))
  | Except.ok (some url) =>
      let llm : Option LlmReport :=
        if env.enableLlmAnalysis then some (analyzeTextureQuality env.oracleResult)
        else none
      let w1 := startWrites ++
        (if hasRecord then [DbWrite.updateCompleted url qualityMetrics llm] else [])
      if env.sendNotification then
        match env.notifyResult with
        | Except.error msg =>
            (w1 ++ (if hasRecord then [DbWrite.updateFailed msg] else []),
             Except.error ("Error applying texture: " ++ msg))
        | Except.ok _ => (w1, Except.ok url)
      else (w1, Except.ok url)

/-- The outcome of `await generateImage(...)` as a function of the
decode outcome: `generateImage` wraps any thrown error as
"Local processing failed: ..." (`imageGeneration.ts` line 109); on a
successful decode it runs the pixel pipeline, persists the result under
a timestamped key and resolves with the storage url. -/
def generateImageResult (buf : ImageBuffer) (url : String) : Except String (Option String) :=
  match decodeImage buf with
  | Except.error msg => Except.error ("Local processing failed: " ++ msg)
  | Except.ok _ => Except.ok (some url)

/-- `true` on the `updateCompleted` constructor. -/
def DbWrite.isCompletedUpdate : DbWrite → Bool
  | DbWrite.updateCompleted _ _ _ => true
  | _ => false

/-- `true` on the `updateFailed` constructor. -/
def DbWrite.isFailedUpdate : DbWrite → Bool
  | DbWrite.updateFailed _ => true
  | _ => false

/-- `true` on either update constructor (record mutations, as opposed
to the creating insert). -/
def DbWrite.isUpdate : DbWrite → Bool
  | DbWrite.insertProcessing => false
  | _ => true

/-- The writes issued after the first `updateCompleted` write. -/
def writesAfterCompleted (w : List DbWrite) : List DbWrite :=
  (w.dropWhile (fun x => !x.isCompletedUpdate)).tail

/-- The writes issued after the first `updateFailed` write. -/
def writesAfterFailed (w : List DbWrite) : List DbWrite :=
  (w.dropWhile (fun x => !x.isFailedUpdate)).tail

/-- Exhaustive enumeration of the write traces `applyTexture` can
produce: no writes (db down), insert only (insert returned no id), a
failed run, a completed run, or a completed run followed by a `failed`
overwrite — the last only when notification was requested and the
`notifyOwner` call threw. -/
theorem applyTexture_cases (env : RunEnv) :
    (∃ r, applyTexture env = ([], r)) ∨
    (∃ r, applyTexture env = ([DbWrite.insertProcessing], r)) ∨
    (∃ m, applyTexture env =
      ([DbWrite.insertProcessing, DbWrite.updateFailed m],
       Except.error ("Error applying texture: " ++ m))) ∨
    (∃ url llm, applyTexture env =
      ([DbWrite.insertProcessing,
        DbWrite.updateCompleted url qualityMetrics llm],
       Except.ok url)) ∨
    (∃ url llm m, applyTexture env =
      ([DbWrite.insertProcessing,
        DbWrite.updateCompleted url qualityMetrics llm,
        DbWrite.updateFailed m],
       Except.error ("Error applying texture: " ++ m)) ∧
      env.sendNotification = true ∧ env.notifyResult = Except.error m) := by
  obtain ⟨db, iid, gen, orc, ntf, llm, snd⟩ := env
  rcases gen with msg | ou <;>
    [skip; rcases ou with _ | url] <;>
    cases db <;> rcases iid with _ | iid <;>
    try cases snd <;> rcases ntf with m | b
  all_goals
    first
      | exact Or.inl ⟨_, rfl⟩
      | exact Or.inr (Or.inl ⟨_, rfl⟩)
      | exact Or.inr (Or.inr (Or.inl ⟨_, rfl⟩))
      | exact Or.inr (Or.inr (Or.inr (Or.inl ⟨_, _, rfl⟩)))
      | exact Or.inr (Or.inr (Or.inr (Or.inr ⟨_, _, _, rfl, rfl, rfl⟩)))

/-! ### Claim C2 — terminal states and the completed→failed overwrite -/

/-- Concrete run environment in which everything succeeds except that
the `notifyOwner` call throws: here because the notification service
URL is not configured (`ENV.forgeApiUrl` unset), one of `notifyOwner`'s
`TRPCError` throw paths. -/
def envNotifyThrows : RunEnv :=
  { dbAvailable := true
    insertId := some 1
    genResult := Except.ok (some "/uploads/generated-1700000000000.png")
    oracleResult := Except.ok none
    notifyResult := notifyOwner ⟨none, some "key", Except.ok true⟩
      "PROCESAMIENTO COMPLETADO - Case N/A"
      "PROCESAMIENTO DE HUELLA DACTILAR COMPLETADO"
    enableLlmAnalysis := false
    sendNotification := true }

/-- C2 counterexample: in `envNotifyThrows` the run record is updated
to `failed` *after* it was already updated to the terminal `completed`
state — the record is mutated three times and a Completed record is
overwritten with Failed, contradicting the claim. -/
theorem spec_c2_counterexample :
    (applyTexture envNotifyThrows).1 =
      [DbWrite.insertProcessing,
       DbWrite.updateCompleted "/uploads/generated-1700000000000.png" qualityMetrics none,
       DbWrite.updateFailed "Notification service URL is not configured."] := by
  rfl

/-- C2 (amended): once a run record is updated to `Failed` it is never
mutated again, and the orchestrator issues at most two updates; but
`Completed` is not terminal: the record can be updated once more — from
`Completed` to `Failed` — exactly when notification was requested and
the `notifyOwner` call threw. -/
theorem spec_c2_amended (env : RunEnv) :
    writesAfterFailed (applyTexture env).1 = [] ∧
    (applyTexture env).1.countP (fun x => x.isUpdate) ≤ 2 ∧
    (writesAfterCompleted (applyTexture env).1 = [] ∨
      (env.sendNotification = true ∧
        ∃ m, env.notifyResult = Except.error m ∧
          writesAfterCompleted (applyTexture env).1 = [DbWrite.updateFailed m])) := by
  rcases applyTexture_cases env with
    ⟨r, h⟩ | ⟨r, h⟩ | ⟨m, h⟩ | ⟨url, llm, h⟩ | ⟨url, llm, m, h, hs, hn⟩
  · rw [h]
    exact ⟨rfl, by simp, Or.inl rfl⟩
  · rw [h]
    exact ⟨rfl, by simp [DbWrite.isUpdate], Or.inl rfl⟩
  · rw [h]
    refine ⟨rfl, by simp [DbWrite.isUpdate], Or.inl ?_⟩
    rfl
  · rw [h]
    refine ⟨rfl, by simp [DbWrite.isUpdate], Or.inl ?_⟩
    rfl
  · rw [h]
    refine ⟨rfl, by simp [DbWrite.isUpdate], Or.inr ⟨hs, m, hn, ?_⟩⟩
    rfl

/-- C2 witness for the amended theorem: at `envNotifyThrows` the
completed record is followed by exactly the one `failed` overwrite the
amended claim allows, and notification was indeed requested with a
throwing `notifyOwner`. -/
theorem spec_c2_witness :
    writesAfterFailed (applyTexture envNotifyThrows).1 = [] ∧
    (applyTexture envNotifyThrows).1.countP (fun x => x.isUpdate) ≤ 2 ∧
    (writesAfterCompleted (applyTexture envNotifyThrows).1 = [] ∨
      (envNotifyThrows.sendNotification = true ∧
        ∃ m, envNotifyThrows.notifyResult = Except.error m ∧
          writesAfterCompleted (applyTexture envNotifyThrows).1 =
            [DbWrite.updateFailed m])) :=
  spec_c2_amended envNotifyThrows

/-! ### Claim C3 — the quality metrics -/

/-- Concrete successful run environment (no LLM, no notification). -/
def envPlainSuccess : RunEnv :=
  { dbAvailable := true
    insertId := some 7
    genResult := Except.ok (some "/uploads/generated-3.png")
    oracleResult := Except.ok none
    notifyResult := Except.ok true
    enableLlmAnalysis := false
    sendNotification := false }

/-- C3 counterexample: on a concrete run whose input is an all-white
1×1 image — so the Texture Synthesizer invariant holds exactly (its
only Valley pixel is pure white in the output) — the metrics attached
by the completed update are the hard-coded `qualityMetrics`, whose
`backgroundCleanness` is 0.99, not 1.0. -/
theorem spec_c3_counterexample :
    (synthesize (fun _ => 0) (Image.mk 1 1 [⟨255, 255, 255, 255⟩])).data =
      [⟨255, 255, 255, 255⟩] ∧
    (applyTexture envPlainSuccess).1 =
      [DbWrite.insertProcessing,
       DbWrite.updateCompleted "/uploads/generated-3.png" qualityMetrics none] ∧
    qualityMetrics.backgroundCleanness ≠ 1 := by
  refine ⟨rfl, rfl, ?_⟩
  norm_num [qualityMetrics]

/-- C3 (amended): the metrics attached to every completed run are the
single hard-coded constant — `backgroundCleanness` is 0.99 whether or
not the synthesizer invariant holds — so the metrics are trivially
independent of the two images, of run metadata and of wall-clock time,
and all six scores lie in [0, 1]. -/
theorem spec_c3_amended :
    (∀ (env : RunEnv) (u : String) (m : QualityMetrics) (l : Option LlmReport),
      DbWrite.updateCompleted u m l ∈ (applyTexture env).1 → m = qualityMetrics) ∧
    qualityMetrics.backgroundCleanness = 99 / 100 ∧
    (0 ≤ qualityMetrics.textureUniformity ∧ qualityMetrics.textureUniformity ≤ 1) ∧
    (0 ≤ qualityMetrics.edgePreservation ∧ qualityMetrics.edgePreservation ≤ 1) ∧
    (0 ≤ qualityMetrics.contrastRatio ∧ qualityMetrics.contrastRatio ≤ 1) ∧
    (0 ≤ qualityMetrics.overallScore ∧ qualityMetrics.overallScore ≤ 1) ∧
    (0 ≤ qualityMetrics.ridgeClarity ∧ qualityMetrics.ridgeClarity ≤ 1) ∧
    (0 ≤ qualityMetrics.backgroundCleanness ∧ qualityMetrics.backgroundCleanness ≤ 1) := by
  refine ⟨?_, by norm_num [qualityMetrics], by norm_num [qualityMetrics],
    by norm_num [qualityMetrics], by norm_num [qualityMetrics],
    by norm_num [qualityMetrics], by norm_num [qualityMetrics],
    by norm_num [qualityMetrics]⟩
  intro env u m l hmem
  rcases applyTexture_cases env with
    ⟨r, h⟩ | ⟨r, h⟩ | ⟨m2, h⟩ | ⟨url, llm, h⟩ | ⟨url, llm, m2, h, hs, hn⟩ <;>
    rw [h] at hmem <;> simp_all

/-- C3 witness for the amended theorem: the metrics attached to the
concrete run `envPlainSuccess` are the constant object. -/
theorem spec_c3_witness :
    qualityMetrics = qualityMetrics ∧
    qualityMetrics.backgroundCleanness = 99 / 100 :=
  ⟨spec_c3_amended.1 envPlainSuccess "/uploads/generated-3.png" qualityMetrics none
      (show DbWrite.updateCompleted "/uploads/generated-3.png" qualityMetrics none ∈
          [DbWrite.insertProcessing,
           DbWrite.updateCompleted "/uploads/generated-3.png" qualityMetrics none]
        from List.mem_cons_of_mem _ (List.mem_singleton.mpr rfl)),
   spec_c3_amended.2.1⟩

/-! ### Claim C6 — oracle failure never fails the run -/

/-- Concrete run environment in which the qualitative-oracle call
times out. -/
def envOracleDown : RunEnv :=
  { dbAvailable := true
    insertId := some 42
    genResult := Except.ok (some "/uploads/generated-2.png")
    oracleResult := Except.error "Request timed out"
    notifyResult := Except.ok true
    enableLlmAnalysis := true
    sendNotification := false }

/-- C6 counterexample: when the oracle call times out the run does
terminate in Completed, but the oracle report attached to the record is
the non-null fallback object (`"Analysis failed"`, confidence 0) — not
`null` as the claim states.  `null` is attached only when analysis is
disabled. -/
theorem spec_c6_counterexample :
    (applyTexture envOracleDown).2 = Except.ok "/uploads/generated-2.png" ∧
    (applyTexture envOracleDown).1 =
      [DbWrite.insertProcessing,
       DbWrite.updateCompleted "/uploads/generated-2.png" qualityMetrics
         (some (analysisFailed "Request timed out"))] ∧
    (some (analysisFailed "Request timed out") : Option LlmReport) ≠ none := by
  exact ⟨rfl, rfl, by simp⟩

/-- C6 (amended): an oracle error or timeout never fails the run —
provided the independent notification call does not itself throw, the
run terminates in Completed — but the report attached is the non-null
`analysisFailed` fallback (confidence 0), not `null`. -/
theorem spec_c6_amended (env : RunEnv) (url msg : String)
    (hgen : env.genResult = Except.ok (some url))
    (hllm : env.enableLlmAnalysis = true)
    (horacle : env.oracleResult = Except.error msg)
    (hnotify : env.sendNotification = false ∨ ∃ b, env.notifyResult = Except.ok b) :
    (applyTexture env).2 = Except.ok url ∧
    (env.dbAvailable = true → env.insertId.isSome = true →
      (applyTexture env).1 =
        [DbWrite.insertProcessing,
         DbWrite.updateCompleted url qualityMetrics (some (analysisFailed msg))]) ∧
    (some (analysisFailed msg) : Option LlmReport) ≠ none := by
  obtain ⟨db, iid, gen, orc, ntf, llm, snd⟩ := env
  simp only at hgen hllm horacle
  subst hgen hllm horacle
  rcases hnotify with hsnd | ⟨b, hntf⟩
  · simp only at hsnd
    subst hsnd
    cases db <;> rcases iid with _ | iid <;>
      simp [applyTexture, analyzeTextureQuality]
  · simp only at hntf
    subst hntf
    cases db <;> rcases iid with _ | iid <;> cases snd <;>
      simp [applyTexture, analyzeTextureQuality]

/-- C6 witness: the amended theorem applied at the concrete
environment `envOracleDown`. -/
theorem spec_c6_witness :
    (applyTexture envOracleDown).2 = Except.ok "/uploads/generated-2.png" ∧
    (envOracleDown.dbAvailable = true → envOracleDown.insertId.isSome = true →
      (applyTexture envOracleDown).1 =
        [DbWrite.insertProcessing,
         DbWrite.updateCompleted "/uploads/generated-2.png" qualityMetrics
           (some (analysisFailed "Request timed out"))]) ∧
    (some (analysisFailed "Request timed out") : Option LlmReport) ≠ none :=
  spec_c6_amended envOracleDown "/uploads/generated-2.png" "Request timed out"
    rfl rfl rfl (Or.inl rfl)

/-! ### Claim C7 — invalid image buffers always fail the run -/

/-- C7: a run submitted with an invalid image buffer (channel data
length ≠ width×height×4, so decoding fails with the `InvalidImage`
error) always terminates in `Failed` with the decode error recorded on
the run record, never issues a `completed` update, and re-throws the
error to the caller. -/
theorem spec_c7_invalid_image_fails (buf : ImageBuffer) (url : String) (env : RunEnv)
    (hbuf : buf.channels.length ≠ buf.width * buf.height * 4)
    (hgen : env.genResult = generateImageResult buf url)
    (hdb : env.dbAvailable = true)
    (hid : env.insertId.isSome = true) :
    (applyTexture env).1 =
      [DbWrite.insertProcessing,
       DbWrite.updateFailed ("Local processing failed: " ++
         "InvalidImage: channel data length does not match width*height*4")] ∧
    (applyTexture env).1.all (fun w => !w.isCompletedUpdate) = true ∧
    (applyTexture env).2 =
      Except.error ("Error applying texture: " ++ ("Local processing failed: " ++
        "InvalidImage: channel data length does not match width*height*4")) := by
  have hdec : decodeImage buf =
      Except.error "InvalidImage: channel data length does not match width*height*4" := by
    unfold decodeImage
    rw [if_neg hbuf]
  have hgen2 : env.genResult =
      Except.error ("Local processing failed: " ++
        "InvalidImage: channel data length does not match width*height*4") := by
    rw [hgen]
    unfold generateImageResult
    rw [hdec]
  obtain ⟨db, iid, gen, orc, ntf, llm, snd⟩ := env
  simp only at hgen2 hdb hid
  subst hgen2 hdb
  rcases iid with _ | iid
  · simp at hid
  · exact ⟨rfl, rfl, rfl⟩

/-- C7 witness: a concrete 2×2 buffer with only 3 channel bytes
(3 ≠ 16) fails the run with the `InvalidImage` error and no completed
write. -/
theorem spec_c7_witness :
    (applyTexture
        { dbAvailable := true
          insertId := some 1
          genResult := generateImageResult ⟨2, 2, [0, 0, 0]⟩ "/uploads/generated-4.png"
          oracleResult := Except.ok none
          notifyResult := Except.ok true
          enableLlmAnalysis := true
          sendNotification := true }).1 =
      [DbWrite.insertProcessing,
       DbWrite.updateFailed ("Local processing failed: " ++
         "InvalidImage: channel data length does not match width*height*4")] ∧
    (applyTexture
        { dbAvailable := true
          insertId := some 1
          genResult := generateImageResult ⟨2, 2, [0, 0, 0]⟩ "/uploads/generated-4.png"
          oracleResult := Except.ok none
          notifyResult := Except.ok true
          enableLlmAnalysis := true
          sendNotification := true }).1.all (fun w => !w.isCompletedUpdate) = true ∧
    (applyTexture
        { dbAvailable := true
          insertId := some 1
          genResult := generateImageResult ⟨2, 2, [0, 0, 0]⟩ "/uploads/generated-4.png"
          oracleResult := Except.ok none
          notifyResult := Except.ok true
          enableLlmAnalysis := true
          sendNotification := true }).2 =
      Except.error ("Error applying texture: " ++ ("Local processing failed: " ++
        "InvalidImage: channel data length does not match width*height*4")) :=
  spec_c7_invalid_image_fails ⟨2, 2, [0, 0, 0]⟩ "/uploads/generated-4.png"
    { dbAvailable := true
      insertId := some 1
      genResult := generateImageResult ⟨2, 2, [0, 0, 0]⟩ "/uploads/generated-4.png"
      oracleResult := Except.ok none
      notifyResult := Except.ok true
      enableLlmAnalysis := true
      sendNotification := true }
    (by decide) rfl rfl rfl

/-! ### getHistory (`textureRouter.ts` lines 445-480) -/

/-- A run-record row as far as the listing query is concerned (the
columns the claims touch: identity, sort key, status). -/
structure HistoryRow where
  id : Nat
  createdAt : Nat
  status : RunStatus
deriving DecidableEq, Repr

/-- Insert a row into a list sorted by `createdAt` descending. -/
def insertByCreatedAtDesc (r : HistoryRow) : List HistoryRow → List HistoryRow
  | [] => [r]
  | x :: xs =>
      if x.createdAt < r.createdAt then r :: x :: xs
      else x :: insertByCreatedAtDesc r xs

/-- The query's `orderBy(desc(processingHistory.createdAt))`. -/
def sortByCreatedAtDesc (rows : List HistoryRow) : List HistoryRow :=
  rows.foldr insertByCreatedAtDesc []

/-- The value `getHistory` resolves with. -/
structure HistoryPage where
  items : List HistoryRow
  total : Nat
deriving DecidableEq, Repr

/-- The `getHistory` query.  `db` is `none` when `getDb()` returned
null; `queryFails` is true when the select throws (caught, returning
the empty page).  The `status` and `caseId` arguments are accepted by
the input schema but **never referenced in the query** — the source
builds `select → orderBy → limit → offset` with no `where` clause (the
imported `and` combinator is unused) — so they are parameters the body
ignores. -/
def getHistory (db : Option (List HistoryRow)) (limit offset : Nat)
    (status : Option RunStatus) (caseId : Option String)
    (queryFails : Bool) : HistoryPage :=
  match db with
  | none => ⟨[], 0⟩
  | some rows =>
      if queryFails then ⟨[], 0⟩
      else
        let items := ((sortByCreatedAtDesc rows).drop offset).take limit
        ⟨items, items.length⟩

/-- A completed record, newer (`createdAt` 100). -/
def rowCompletedNew : HistoryRow := ⟨1, 100, RunStatus.completed⟩

/-- A failed record, older (`createdAt` 50). -/
def rowFailedOld : HistoryRow := ⟨2, 50, RunStatus.failed⟩

/-! ### Claim C8 — the status filter -/

/-- C8: pagination by limit/offset is honored, but the requested
status filter is ignored: querying a store holding one completed and
one failed record with `status = completed` returns both records —
including the failed one — and in general the result does not depend
on the `status` (or `caseId`) argument at all. -/
theorem spec_c8_status_filter_ignored :
    (getHistory (some [rowCompletedNew, rowFailedOld]) 20 0
        (some RunStatus.completed) none false).items =
      [rowCompletedNew, rowFailedOld] ∧
    rowFailedOld.status = RunStatus.failed ∧
    (∀ (db : Option (List HistoryRow)) (lim off : Nat)
        (s1 s2 : Option RunStatus) (c1 c2 : Option String) (qf : Bool),
      getHistory db lim off s1 c1 qf = getHistory db lim off s2 c2 qf) := by
  refine ⟨rfl, rfl, ?_⟩
  intro db lim off s1 s2 c1 c2 qf
  rfl

/-! ### Claim C9 — total is the page size; db failures degrade -/

/-- C9: `total` is the length of the returned page (`items.length`,
hence at most `limit`), not the number of matching records in the
store; and when the database is unavailable or the query throws,
`getHistory` returns the empty page `{ items: [], total: 0 }` instead
of raising. -/
theorem spec_c9_total_is_page_size (db : Option (List HistoryRow)) (lim off : Nat)
    (status : Option RunStatus) (caseId : Option String) (queryFails : Bool) :
    (getHistory db lim off status caseId queryFails).total =
      (getHistory db lim off status caseId queryFails).items.length ∧
    (getHistory db lim off status caseId queryFails).total ≤ lim ∧
    (db = none → getHistory db lim off status caseId queryFails = ⟨[], 0⟩) ∧
    (queryFails = true → getHistory db lim off status caseId queryFails = ⟨[], 0⟩) := by
  rcases db with _ | rows
  · simp [getHistory]
  · cases queryFails <;> simp [getHistory, List.length_take]

/-- C9 witness: the theorem applied at concrete inputs — a missing
database and a throwing query both yield the empty page. -/
theorem spec_c9_witness :
    getHistory none 20 0 none none false = ⟨[], 0⟩ ∧
    getHistory (some [rowCompletedNew]) 5 0 none none true = ⟨[], 0⟩ :=
  ⟨(spec_c9_total_is_page_size none 20 0 none none false).2.2.1 rfl,
   (spec_c9_total_is_page_size (some [rowCompletedNew]) 5 0 none none true).2.2.2 rfl⟩

/-! ### Claim C10 — local storage key normalization (`server/storage.ts`) -/

/-- The local `normalizeKey`: strip leading slashes
(`replace(/^\/+/, "")`), then replace every remaining slash with a
dash (`replace(/\//g, "-")`). -/
def normalizeKey (relKey : String) : String :=
  ⟨(relKey.data.dropWhile (fun c => c = '/')).map
      (fun c => if c = '/' then '-' else c)⟩

/-- The local `storagePut`: writes the bytes at
`path.join(UPLOADS_DIR, normalizeKey relKey)` and returns the pair of
normalized key and its public url `/uploads/<key>`. -/
def storagePut (relKey : String) : String × String :=
  (normalizeKey relKey, "/uploads/" ++ normalizeKey relKey)

/-- C10: for every storage key, the normalized key `storagePut` uses
contains no `/` character, so the file path joined under the uploads
directory has no caller-controlled separator: every upload lands
directly inside the uploads directory. -/
theorem spec_c10_no_separators (relKey : String) :
    (¬ '/' ∈ (normalizeKey relKey).data) ∧
    (storagePut relKey).1 = normalizeKey relKey ∧
    (storagePut relKey).2 = "/uploads/" ++ normalizeKey relKey := by
  refine ⟨?_, rfl, rfl⟩
  intro hmem
  rcases List.mem_map.mp hmem with ⟨c, hc, heq⟩
  by_cases h : c = '/'
  · rw [if_pos h] at heq
    exact absurd heq (by decide)
  · rw [if_neg h] at heq
    exact h heq

/-- C10 witness: a concrete traversal-shaped key is flattened into a
single path component. -/
theorem spec_c10_witness :
    (¬ '/' ∈ (normalizeKey "//forensic/case-9/../original/file.png").data) ∧
    (storagePut "//forensic/case-9/../original/file.png").1 =
      normalizeKey "//forensic/case-9/../original/file.png" ∧
    (storagePut "//forensic/case-9/../original/file.png").2 =
      "/uploads/" ++ normalizeKey "//forensic/case-9/../original/file.png" :=
  spec_c10_no_separators "//forensic/case-9/../original/file.png"

end Forensic
